import Mathlib

/-!
Shallow embedding of the Conversation Logger API (`src/server.py`, `src/db.py`).

The service stores conversation records in a single table and exposes five
HTTP routes: health, create (`/save-conversation`), list (`/conversations`),
get-by-id (`/conversations/{id}`) and export (`/conversations/{id}/export.txt`).

Modelling choices:
  * the database table is a list of rows plus the next auto-increment id;
  * `timestamptz` values are modelled as `Int` UTC instants (seconds); the SQL
    `DATE(ts AT TIME ZONE 'UTC')` day-truncation is floor division by 86400;
  * Python string operations are modelled on Lean `String`s
    (`.strip()` ~ `pyStrip`, `.lower()` ~ `pyLower`,
    slicing `s[:160]` ~ `String.take`, `str.replace` ~ a recursive
    leftmost non-overlapping replacement on the character list); the custom
    versions are structurally recursive so concrete runs reduce in the kernel;
  * SQL `LOWER(sujet) = %s` on a nullable column: a `NULL` column value never
    satisfies the comparison, so `none` never matches;
  * the try/except control flow of each handler is modelled by an `…Exec`
    variant taking a flag saying whether the SQL statement raises after the
    connection was acquired; the variant also records whether `conn.close()`
    was reached before the response (the source has no `finally` block).
-/

namespace ConvLogger

/-- Python `s.strip()`: removes leading and trailing whitespace characters
(modelled with `Char.isWhitespace`, which covers the ASCII whitespace that
matters here). -/
def pyStrip (s : String) : String :=
  ⟨((s.toList.dropWhile Char.isWhitespace).reverse.dropWhile
      Char.isWhitespace).reverse⟩

/-- Python `s.lower()` / SQL `LOWER`, character-wise lowercasing (ASCII via
`Char.toLower`, sufficient for the model). -/
def pyLower (s : String) : String := ⟨s.toList.map Char.toLower⟩

/-- A stored row of the `conversations` table. -/
structure Row where
  id : Nat
  user_name : String
  sujet : Option String
  conversation : String
  date_conversation : Int
deriving Repr, DecidableEq

/-- The database: stored rows plus the auto-increment counter. -/
structure DBState where
  rows : List Row
  nextId : Nat
deriving Repr, DecidableEq

/-- `INSERT INTO conversations … RETURNING id;` — appends a row with the
next auto-increment id and returns the new state and the generated id. -/
def insertConversation (st : DBState) (user_name : String) (conversation : String)
    (sujet : Option String) (date : Int) : DBState × Nat :=
  ({ rows := st.rows ++ [⟨st.nextId, user_name, sujet, conversation, date⟩],
     nextId := st.nextId + 1 }, st.nextId)

/-- Request body of `/save-conversation` (`ConversationIn` pydantic model).
`date_conversation` is an optional timestamp. -/
structure ConversationIn where
  user_name : String
  conversation : String
  sujet : Option String
  date_conversation : Option Int
deriving Repr, DecidableEq

/-- Pydantic validation of `ConversationIn`:
`user_name : constr(min_length=1, max_length=200)`,
`conversation : constr(min_length=1)`, `sujet : Optional[constr(max_length=200)]`.
Lengths count characters, as in Python. -/
def validConversationIn (p : ConversationIn) : Bool :=
  1 ≤ p.user_name.length && p.user_name.length ≤ 200 &&
  1 ≤ p.conversation.length &&
  (match p.sujet with
   | none => true
   | some s => s.length ≤ 200)

/-- The `save_conversation` handler body (success path): stores
`payload.user_name.strip()`, the conversation unchanged, the sujet unchanged,
and `payload.date_conversation or datetime.now(timezone.utc)` (a datetime is
always truthy in Python, so a supplied value is kept and `now` is the default). -/
def saveConversation (st : DBState) (p : ConversationIn) (now : Int) : DBState × Nat :=
  insertConversation st (pyStrip p.user_name) p.conversation p.sujet
    (p.date_conversation.getD now)

/-- SQL `LOWER(sujet) = %s` against the handler-lowered parameter: a `NULL`
column never compares equal, a non-null one matches iff its lowercase form
equals the parameter. -/
def sujetMatches (rowSujet : Option String) (param : String) : Bool :=
  match rowSujet with
  | none => false
  | some s => pyLower s == param

/-- `DATE(date_conversation AT TIME ZONE 'UTC')`: the UTC calendar day of an
instant, as floor division of the epoch-seconds value by 86400. -/
def utcDay (t : Int) : Int := t.fdiv 86400

/-- Query parameters of the list endpoint. `sujet` is required; `date` is the
optional `YYYY-MM-DD` day filter (modelled as a day number); `user_name` is the
optional substring filter; `limit`/`offset` paginate. -/
structure ListQuery where
  sujet : String
  date : Option Int
  user_name : Option String
  limit : Nat
  offset : Nat
deriving Repr, DecidableEq

/-- `pat` occurs somewhere in `l` (as a contiguous run of characters). -/
def hasOcc (pat : List Char) : List Char → Bool
  | [] => pat.isPrefixOf ([] : List Char)
  | c :: cs => pat.isPrefixOf (c :: cs) || hasOcc pat cs

/-- The conjunctive WHERE clause built by `list_conversations`:
always `LOWER(sujet) = %s` (with the Python-lowered query value); the day
filter when `date` is supplied; `LOWER(user_name) LIKE %…%` (case-insensitive
substring) when `user_name` is supplied and non-empty (Python truthiness:
`if user_name:` skips the filter for an empty string). -/
def rowMatches (q : ListQuery) (r : Row) : Bool :=
  sujetMatches r.sujet (pyLower q.sujet) &&
  (match q.date with
   | none => true
   | some d => utcDay r.date_conversation == d) &&
  (match q.user_name with
   | none => true
   | some u =>
     if u = "" then true
     else hasOcc (pyLower u).toList (pyLower r.user_name).toList)

/-- `ORDER BY date_conversation DESC, id DESC`: row `a` precedes row `b`. -/
def rowBefore (a b : Row) : Prop :=
  b.date_conversation < a.date_conversation ∨
  (a.date_conversation = b.date_conversation ∧ b.id ≤ a.id)

instance : DecidableRel rowBefore := fun a b => by
  unfold rowBefore; exact inferInstance

instance : IsTotal Row rowBefore := ⟨by intro a b; unfold rowBefore; omega⟩

instance : IsTrans Row rowBefore := ⟨by intro a b c; unfold rowBefore; omega⟩

/-- The ordered result set of the list query. -/
def sortRows (l : List Row) : List Row := l.insertionSort rowBefore

/-- Preview construction in `list_conversations`:
`(conv[:160] + "…") if len(conv) > 160 else conv`. -/
def makePreview (conv : String) : String :=
  if conv.length > 160 then conv.take 160 ++ "…" else conv

/-- One element of the list endpoint's `items` (`ConversationSummary`). -/
structure ConversationSummary where
  id : Nat
  user_name : String
  sujet : Option String
  date_conversation : Int
  preview : String
deriving Repr, DecidableEq

/-- Row-to-summary mapping done in the `for` loop of `list_conversations`. -/
def summarize (r : Row) : ConversationSummary :=
  ⟨r.id, r.user_name, r.sujet, r.date_conversation, makePreview r.conversation⟩

/-- Response of the list endpoint: `{"items": …, "total": …}`. -/
structure ListResult where
  items : List ConversationSummary
  total : Nat
deriving Repr, DecidableEq

/-- The `list_conversations` handler body (success path): filter with the
conjunctive WHERE clause, `ORDER BY date_conversation DESC, id DESC`,
`LIMIT %s OFFSET %s`, map rows to summaries; `total` is the second query,
`SELECT COUNT(*)` with the same WHERE clause and no limit/offset. -/
def listConversations (st : DBState) (q : ListQuery) : ListResult :=
  let matching := st.rows.filter (rowMatches q)
  let page := ((sortRows matching).drop q.offset).take q.limit
  { items := page.map summarize, total := matching.length }

/-- `SELECT … FROM conversations WHERE id=%s AND LOWER(sujet) = %s;` followed
by `fetchone()`: the row matching both conditions, if any (the handler passes
`sujet.lower()` as the parameter, done by the callers below). -/
def findByIdSujet (st : DBState) (id : Nat) (sujetParam : String) : Option Row :=
  st.rows.find? (fun r => r.id == id && sujetMatches r.sujet sujetParam)

/-- An HTTP outcome: a successful payload or an `HTTPException` with a status
code and detail message. -/
inductive ApiResponse (α : Type) where
  | ok (value : α)
  | httpError (status : Nat) (detail : String)
deriving Repr, DecidableEq

/-- Full record returned by get-by-id (`ConversationDetail`). -/
structure ConversationDetail where
  id : Nat
  user_name : String
  sujet : Option String
  date_conversation : Int
  conversation : String
deriving Repr, DecidableEq

/-- The `get_conversation_by_id` handler body (success path): look the row up
by id and lowered sujet; `404 Conversation not found` when no row matches,
otherwise the full record. -/
def getConversationById (st : DBState) (id : Nat) (sujet : String) :
    ApiResponse ConversationDetail :=
  match findByIdSujet st id (pyLower sujet) with
  | none => .httpError 404 "Conversation not found"
  | some r => .ok ⟨r.id, r.user_name, r.sujet, r.date_conversation, r.conversation⟩

/-- Leftmost non-overlapping replacement on character lists, the semantics of
Python `str.replace` for a non-empty pattern. The fuel argument is the length
of the scanned list; it only makes the recursion structural. -/
def replaceAux (pat rep : List Char) : Nat → List Char → List Char
  | _, [] => []
  | 0, l => l
  | fuel + 1, c :: cs =>
    if pat.isPrefixOf (c :: cs) then
      rep ++ replaceAux pat rep fuel ((c :: cs).drop pat.length)
    else
      c :: replaceAux pat rep fuel cs

/-- Python `s.replace(pat, rep)` for a non-empty pattern (the source only uses
the three-character pattern `" , "`). -/
def pyReplace (s pat rep : String) : String :=
  ⟨replaceAux pat.toList rep.toList s.toList.length s.toList⟩

/-- The `export_conversation_txt` handler body (success path): same lookup as
get-by-id; `404` when no row matches, otherwise the conversation with every
occurrence of `" , "` replaced by `"\n"` (`row[0].replace(" , ", "\n")`). -/
def exportConversationTxt (st : DBState) (id : Nat) (sujet : String) :
    ApiResponse String :=
  match findByIdSujet st id (pyLower sujet) with
  | none => .httpError 404 "Conversation not found"
  | some r => .ok (pyReplace r.conversation " , " "\n")

/-!
Exception-path model. Each handler wraps its body in
`try: conn = get_connection(); … except Exception as e: raise HTTPException(500, …)`
with no `finally`. The `…Exec` variants take `execFails : Bool`: when true,
the SQL statement raises after the connection was acquired, control jumps to
the `except` block and the 500 response is raised; `conn.close()` is only on
the success path of the `try` block. `connClosed` records whether
`conn.close()` ran before the response. In `get_conversation_by_id` and
`export_conversation_txt` the close happens before the not-found check, and
`except HTTPException: raise` re-raises the 404 unchanged.
-/

/-- A handler execution outcome: the HTTP response together with whether the
acquired connection was closed before the response was produced. -/
structure ExecOutcome (α : Type) where
  response : ApiResponse α
  connClosed : Bool
deriving Repr, DecidableEq

/-- `save_conversation` with its try/except control flow: on a statement
failure the commit never happens (state unchanged), the handler raises
`500 Insertion échouée` and never reaches `conn.close()`. -/
def saveConversationExec (st : DBState) (p : ConversationIn) (now : Int)
    (execFails : Bool) : DBState × ExecOutcome Nat :=
  if execFails then
    (st, ⟨.httpError 500 "Insertion échouée", false⟩)
  else
    let r := saveConversation st p now
    (r.1, ⟨.ok r.2, true⟩)

/-- `list_conversations` with its try/except control flow. -/
def listConversationsExec (st : DBState) (q : ListQuery) (execFails : Bool) :
    ExecOutcome ListResult :=
  if execFails then ⟨.httpError 500 "Query failed", false⟩
  else ⟨.ok (listConversations st q), true⟩

/-- `get_conversation_by_id` with its try/except control flow: the cursor and
connection are closed before the not-found check, so the 404 path closes the
connection; `except HTTPException: raise` passes the 404 through. -/
def getConversationByIdExec (st : DBState) (id : Nat) (sujet : String)
    (execFails : Bool) : ExecOutcome ConversationDetail :=
  if execFails then ⟨.httpError 500 "Query failed", false⟩
  else ⟨getConversationById st id sujet, true⟩

/-- `export_conversation_txt` with its try/except control flow; same shape as
get-by-id. -/
def exportConversationTxtExec (st : DBState) (id : Nat) (sujet : String)
    (execFails : Bool) : ExecOutcome String :=
  if execFails then ⟨.httpError 500 "Export failed", false⟩
  else ⟨exportConversationTxt st id sujet, true⟩

/-!
API-key gate. `API_KEY = os.getenv("API_KEY")` is `None` when unset; Python
truthiness makes an empty string behave as unset both in
`dependencies=[require_api_key] if API_KEY else []` and inside
`require_api_key` itself.

The wiring is modelled as the source has it: each data route passes the BARE
function `require_api_key` in its `dependencies` list, not
`Depends(require_api_key)`. FastAPI's route registration
(`APIRoute.__init__` → `get_parameterless_sub_dependant`) reads
`depends.dependency` on every item of that list; a plain function has no
`.dependency` attribute, so registration raises `AttributeError` while
`server.py` is being imported whenever `API_KEY` is truthy. The import model
below carries that failure; a request can only be served when the import
succeeded.
-/

/-- `if API_KEY:` — the gate is active only for a set, non-empty secret. -/
def apiKeyActive (apiKey : Option String) : Bool :=
  match apiKey with
  | none => false
  | some k => !(k == "")

/-- `require_api_key`: raises `401 Unauthorized` iff the secret is configured
(truthy) and the `x-api-key` header does not exactly equal it (a missing
header, `None`, never equals a configured string). Returns the raised error,
or `none` when the request passes. -/
def requireApiKey (apiKey : Option String) (xApiKey : Option String) :
    Option (Nat × String) :=
  if apiKeyActive apiKey && !(xApiKey == apiKey) then some (401, "Unauthorized")
  else none

/-- A gated execution outcome: the response plus whether the handler body
(and hence any database access) ran. -/
structure GatedOutcome (α : Type) where
  response : ApiResponse α
  dbTouched : Bool
deriving Repr, DecidableEq

/-- One item of a route's `dependencies` list as FastAPI sees it: either a
proper `Depends(...)` wrapper carrying the callable in its `.dependency`
attribute, or a bare callable (what `server.py` actually passes). -/
inductive DependencyItem where
  | dependsOn (dependency : Option String → Option (Nat × String))
  | bareFunction (fn : Option String → Option (Nat × String))

/-- FastAPI route registration of one dependency item:
`get_parameterless_sub_dependant` reads `depends.dependency`, which only the
`Depends` wrapper has; on a bare function this raises `AttributeError`.
On success it yields the check to run before the handler. -/
def registerDependency : DependencyItem →
    Except String (Option String → Option (Nat × String))
  | .dependsOn d => .ok d
  | .bareFunction _ =>
    .error "AttributeError: 'function' object has no attribute 'dependency'"

/-- Registration of a route's whole `dependencies` list, sequentially; the
first bare function aborts with the `AttributeError`. -/
def registerAll : List DependencyItem →
    Except String (List (Option String → Option (Nat × String)))
  | [] => .ok []
  | d :: ds =>
    match registerDependency d with
    | .error e => .error e
    | .ok c =>
      match registerAll ds with
      | .error e => .error e
      | .ok cs => .ok (c :: cs)

/-- The `dependencies` list the source builds for every data route:
`[require_api_key] if API_KEY else []` — the bare function, no `Depends`. -/
def routeDependencies (apiKey : Option String) : List DependencyItem :=
  if apiKeyActive apiKey then [.bareFunction (requireApiKey apiKey)] else []

/-- Importing `server.py`: the route decorators run at import time and
register the data route's dependency list. With a truthy `API_KEY` the bare
function makes registration raise, the import fails and the app never starts;
with no (or an empty) `API_KEY` the list is empty and the import succeeds
with no gate checks installed. -/
def importServer (apiKey : Option String) :
    Except String (List (Option String → Option (Nat × String))) :=
  registerAll (routeDependencies apiKey)

/-- Run the registered gate checks of a route against a request's
`x-api-key` header: the first raised error, if any. -/
def runChecks (checks : List (Option String → Option (Nat × String)))
    (xApiKey : Option String) : Option (Nat × String) :=
  checks.findSome? (fun check => check xApiKey)

/-- A `/save-conversation` request under the wiring the source actually has:
the route only exists if the import succeeded; then the registered checks run
before the handler, so a rejected request never touches the database. -/
def serveSaveConversation (apiKey xApiKey : Option String) (st : DBState)
    (p : ConversationIn) (now : Int) :
    Except String (DBState × GatedOutcome Nat) :=
  match importServer apiKey with
  | .error e => .error e
  | .ok checks =>
    match runChecks checks xApiKey with
    | some e => .ok (st, ⟨.httpError e.1 e.2, false⟩)
    | none =>
      let r := saveConversation st p now
      .ok (r.1, ⟨.ok r.2, true⟩)

/-- A `GET /conversations` request under the source's wiring. -/
def serveListConversations (apiKey xApiKey : Option String) (st : DBState)
    (q : ListQuery) : Except String (GatedOutcome ListResult) :=
  match importServer apiKey with
  | .error e => .error e
  | .ok checks =>
    match runChecks checks xApiKey with
    | some e => .ok ⟨.httpError e.1 e.2, false⟩
    | none => .ok ⟨.ok (listConversations st q), true⟩

/-- A `GET /conversations/{id}` request under the source's wiring. -/
def serveGetConversationById (apiKey xApiKey : Option String) (st : DBState)
    (id : Nat) (sujet : String) :
    Except String (GatedOutcome ConversationDetail) :=
  match importServer apiKey with
  | .error e => .error e
  | .ok checks =>
    match runChecks checks xApiKey with
    | some e => .ok ⟨.httpError e.1 e.2, false⟩
    | none => .ok ⟨getConversationById st id sujet, true⟩

/-- A `GET /conversations/{id}/export.txt` request under the source's
wiring. -/
def serveExportConversationTxt (apiKey xApiKey : Option String) (st : DBState)
    (id : Nat) (sujet : String) : Except String (GatedOutcome String) :=
  match importServer apiKey with
  | .error e => .error e
  | .ok checks =>
    match runChecks checks xApiKey with
    | some e => .ok ⟨.httpError e.1 e.2, false⟩
    | none => .ok ⟨exportConversationTxt st id sujet, true⟩

/-- The `/health` endpoint: unconditionally `{status:"up"}`, no gate. -/
def health : String := "up"

/-- All stored ids are below the auto-increment counter; established by the
schema (`id` is the auto-increment primary key) and preserved by inserts. -/
def idsFresh (st : DBState) : Prop := ∀ r ∈ st.rows, r.id < st.nextId

/-- Stored ids are pairwise distinct (the primary-key property). -/
def distinctIds (st : DBState) : Prop :=
  st.rows.Pairwise (fun a b => a.id ≠ b.id)

/-! ### Helper lemmas -/

theorem sortRows_perm (l : List Row) : List.Perm (sortRows l) l :=
  List.perm_insertionSort rowBefore l

theorem sortRows_pairwise (l : List Row) : (sortRows l).Pairwise rowBefore :=
  List.sorted_insertionSort rowBefore l

theorem length_sortRows (l : List Row) : (sortRows l).length = l.length :=
  (sortRows_perm l).length_eq

theorem mem_sortRows {l : List Row} {r : Row} : r ∈ sortRows l ↔ r ∈ l :=
  (sortRows_perm l).mem_iff

theorem page_sublist (l : List Row) (o k : Nat) :
    List.Sublist ((l.drop o).take k) l :=
  (List.take_sublist _ _).trans (List.drop_sublist _ _)

/-- Every item of the list response is the summary of some stored row that
satisfies the WHERE clause. -/
theorem mem_listItems {st : DBState} {q : ListQuery} {item : ConversationSummary}
    (h : item ∈ (listConversations st q).items) :
    ∃ r, r ∈ st.rows ∧ rowMatches q r = true ∧ summarize r = item := by
  simp only [listConversations] at h
  rcases List.mem_map.1 h with ⟨r, hr, hsum⟩
  have hr' : r ∈ st.rows.filter (rowMatches q) :=
    mem_sortRows.1 ((page_sublist _ _ _).mem hr)
  rcases List.mem_filter.1 hr' with ⟨hmem, hmatch⟩
  exact ⟨r, hmem, hmatch, hsum⟩

theorem replaceAux_of_no_occ (pat rep : List Char) :
    ∀ l : List Char, hasOcc pat l = false → ∀ fuel, replaceAux pat rep fuel l = l := by
  intro l
  induction l with
  | nil => intro _ fuel; cases fuel <;> rfl
  | cons c cs ih =>
    intro h fuel
    rw [hasOcc, Bool.or_eq_false_iff] at h
    cases fuel with
    | zero => rfl
    | succ f =>
      rw [replaceAux, if_neg (by simp [h.1]), ih h.2 f]

/-- Python `replace` leaves a string unchanged when the pattern does not
occur in it. -/
theorem pyReplace_of_no_occ (s pat rep : String)
    (h : hasOcc pat.toList s.toList = false) : pyReplace s pat rep = s := by
  rw [pyReplace, replaceAux_of_no_occ _ _ _ h]
  cases s
  rfl

theorem conversation_ne_empty {p : ConversationIn}
    (hv : validConversationIn p = true) : p.conversation ≠ "" := by
  simp only [validConversationIn, Bool.and_eq_true, decide_eq_true_eq] at hv
  intro hempty
  have : p.conversation.length = 0 := by rw [hempty]; rfl
  omega

/-! ### Claims -/

/-- C1: the claim says every handler releases the acquired database connection
before the HTTP response on every exit path, including error paths. The code
has no `finally`: when the SQL statement raises after the connection was
acquired, each handler jumps to its `except` block and returns the 500
response with the connection still open. This theorem evaluates the four
handlers at such a failing execution: a 500 response is produced and
`connClosed` is `false`, contradicting the claim (the spec states the
intended behaviour; the missing `finally`/context manager is a code bug). -/
theorem connection_leaked_on_error_path :
    (saveConversationExec ⟨[], 1⟩ ⟨"u", "c", none, none⟩ 0 true).2 =
      ⟨.httpError 500 "Insertion échouée", false⟩ ∧
    listConversationsExec ⟨[], 1⟩ ⟨"s", none, none, 50, 0⟩ true =
      ⟨.httpError 500 "Query failed", false⟩ ∧
    getConversationByIdExec ⟨[], 1⟩ 1 "s" true =
      ⟨.httpError 500 "Query failed", false⟩ ∧
    exportConversationTxtExec ⟨[], 1⟩ 1 "s" true =
      ⟨.httpError 500 "Export failed", false⟩ := by
  decide

/-- C2: the claim says a configured secret makes every data route reject a
wrong or missing `x-api-key` with an unauthorized outcome. `require_api_key`
itself behaves that way, but the wiring
`dependencies=[require_api_key] if API_KEY else []` passes the bare function
where FastAPI requires `Depends(...)`; route registration reads
`.dependency` on it and raises `AttributeError` at import time whenever
`API_KEY` is truthy, so the process never starts and no request is ever
rejected with 401 — the missing `Depends()` wrapper is a code bug, with the
spec stating the evident intent. This theorem evaluates the model at a
configured secret: all four data routes die at import with the
`AttributeError` (a wrong-key request gets no response at all, not a 401),
while `require_api_key` alone would have raised the intended 401; and at no
secret: the import succeeds and the same requests reach the handlers ungated,
the half of the claim that does hold. -/
theorem apiKeyGate_import_crash :
    (serveSaveConversation (some "secret") (some "wrong") ⟨[], 1⟩
        ⟨"u", "c", none, none⟩ 0 =
      .error "AttributeError: 'function' object has no attribute 'dependency'") ∧
    (serveListConversations (some "secret") (some "wrong") ⟨[], 1⟩
        ⟨"s", none, none, 50, 0⟩ =
      .error "AttributeError: 'function' object has no attribute 'dependency'") ∧
    (serveGetConversationById (some "secret") (some "wrong") ⟨[], 1⟩ 1 "s" =
      .error "AttributeError: 'function' object has no attribute 'dependency'") ∧
    (serveExportConversationTxt (some "secret") (some "wrong") ⟨[], 1⟩ 1 "s" =
      .error "AttributeError: 'function' object has no attribute 'dependency'") ∧
    requireApiKey (some "secret") (some "wrong") = some (401, "Unauthorized") ∧
    requireApiKey (some "secret") none = some (401, "Unauthorized") ∧
    (serveSaveConversation none (some "wrong") ⟨[], 1⟩ ⟨"u", "c", none, none⟩ 0 =
      .ok (⟨[⟨1, "u", none, "c", 0⟩], 2⟩, ⟨.ok 1, true⟩)) ∧
    (serveListConversations none (some "wrong") ⟨[], 1⟩ ⟨"s", none, none, 50, 0⟩ =
      .ok ⟨.ok ⟨[], 0⟩, true⟩) ∧
    (serveGetConversationById none (some "wrong") ⟨[], 1⟩ 1 "s" =
      .ok ⟨getConversationById ⟨[], 1⟩ 1 "s", true⟩) ∧
    (serveExportConversationTxt none (some "wrong") ⟨[], 1⟩ 1 "s" =
      .ok ⟨exportConversationTxt ⟨[], 1⟩ 1 "s", true⟩) :=
  ⟨rfl, rfl, rfl, rfl, rfl, rfl, rfl, rfl, rfl, rfl⟩

/-- C3 (amended): every create accepted by validation appends exactly one row
whose `user_name` is the supplied name stripped of surrounding whitespace and
whose `conversation` is the supplied, necessarily non-empty, conversation; in
particular non-emptiness of `conversation` is an invariant of the store. The
original claim also asserted the stored `user_name` is non-empty, which fails
for a whitespace-only name (see the counterexample). -/
theorem storedRow_spec (st : DBState) (p : ConversationIn) (now : Int)
    (hv : validConversationIn p = true) :
    (saveConversation st p now).1.rows =
      st.rows ++ [⟨st.nextId, pyStrip p.user_name, p.sujet, p.conversation,
        p.date_conversation.getD now⟩] ∧
    p.conversation ≠ "" ∧
    ((∀ r ∈ st.rows, r.conversation ≠ "") →
      ∀ r ∈ (saveConversation st p now).1.rows, r.conversation ≠ "") := by
  refine ⟨rfl, conversation_ne_empty hv, ?_⟩
  intro hinv r hr
  rw [saveConversation, insertConversation] at hr
  simp only [List.mem_append, List.mem_singleton] at hr
  rcases hr with hr | hr
  · exact hinv r hr
  · rw [hr]
    exact conversation_ne_empty hv

/-- Witness for C3's amended theorem at a concrete accepted payload. -/
theorem storedRow_spec_witness :
    (saveConversation ⟨[], 1⟩ ⟨" bob ", "hi", none, some 5⟩ 0).1.rows =
      [⟨1, pyStrip " bob ", none, "hi", (some (5 : Int)).getD 0⟩] ∧
    ("hi" : String) ≠ "" ∧
    ((∀ r ∈ ([] : List Row), r.conversation ≠ "") →
      ∀ r ∈ (saveConversation ⟨[], 1⟩ ⟨" bob ", "hi", none, some 5⟩ 0).1.rows,
        r.conversation ≠ "") :=
  storedRow_spec ⟨[], 1⟩ ⟨" bob ", "hi", none, some 5⟩ 0 (by decide)

/-- Counterexample for C3 as stated: the whitespace-only `user_name` `" "`
passes validation (`min_length=1` counts the space), but `.strip()` turns it
into the empty string, so a stored row has an empty `user_name`. -/
theorem storedRow_counterexample :
    validConversationIn ⟨" ", "x", none, none⟩ = true ∧
    (saveConversation ⟨[], 1⟩ ⟨" ", "x", none, none⟩ 0).1.rows =
      [⟨1, "", none, "x", 0⟩] := by
  decide

/-- C4 (amended): a record successfully created with a present `sujet` is
retrievable by the returned id with the matching `sujet`; it comes back with
the identical `conversation` and `date_conversation` (UTC instants), and with
`user_name` equal to the supplied name stripped of surrounding whitespace
— identical to the supplied name exactly when that name had none. The
`idsFresh` hypothesis is the auto-increment primary-key property. -/
theorem roundTrip_spec (st : DBState) (hwf : idsFresh st) (p : ConversationIn)
    (now : Int) (s : String) (hs : p.sujet = some s) :
    getConversationById (saveConversation st p now).1
        (saveConversation st p now).2 s =
      .ok ⟨(saveConversation st p now).2, pyStrip p.user_name, some s,
        p.date_conversation.getD now, p.conversation⟩ := by
  have hfind : findByIdSujet (saveConversation st p now).1 st.nextId (pyLower s) =
      some ⟨st.nextId, pyStrip p.user_name, some s, p.conversation,
        p.date_conversation.getD now⟩ := by
    rw [saveConversation, insertConversation, findByIdSujet]
    simp only [List.find?_append]
    have hnone : st.rows.find?
        (fun r => r.id == st.nextId && sujetMatches r.sujet (pyLower s)) = none := by
      rw [List.find?_eq_none]
      intro r hr
      have hid : r.id ≠ st.nextId := Nat.ne_of_lt (hwf r hr)
      simp [hid]
    rw [hnone]
    simp [hs, sujetMatches]
  have h2 : (saveConversation st p now).2 = st.nextId := rfl
  rw [getConversationById, h2, hfind]

/-- Witness for C4's amended theorem: create into the empty store and read the
record back. -/
theorem roundTrip_spec_witness :
    getConversationById
        (saveConversation ⟨[], 1⟩ ⟨"u", "c", some "S", some 5⟩ 0).1
        (saveConversation ⟨[], 1⟩ ⟨"u", "c", some "S", some 5⟩ 0).2 "S" =
      .ok ⟨(saveConversation ⟨[], 1⟩ ⟨"u", "c", some "S", some 5⟩ 0).2,
        pyStrip "u", some "S", (some (5 : Int)).getD 0, "c"⟩ :=
  roundTrip_spec ⟨[], 1⟩ (by simp [idsFresh]) ⟨"u", "c", some "S", some 5⟩ 0 "S" rfl

/-- Counterexample for C4 as stated: a valid create with `user_name " bob "`
round-trips to `user_name "bob"`, which is not identical to the supplied
value (the write strips surrounding whitespace). -/
theorem roundTrip_counterexample :
    validConversationIn ⟨" bob ", "hi", some "s", some 5⟩ = true ∧
    getConversationById
        (saveConversation ⟨[], 1⟩ ⟨" bob ", "hi", some "s", some 5⟩ 0).1
        (saveConversation ⟨[], 1⟩ ⟨" bob ", "hi", some "s", some 5⟩ 0).2 "s" =
      .ok ⟨1, "bob", some "s", 5, "hi"⟩ ∧
    ("bob" : String) ≠ " bob " := by
  decide

/-- C5: every item returned by the list endpoint is the summary of a stored,
filter-matching row; its preview is the conversation itself when the
conversation has at most 160 characters (length 160 included, no marker), and
the first 160 characters followed by the truncation marker `"…"` exactly when
the conversation is longer than 160 characters. -/
theorem listPreview_spec (st : DBState) (q : ListQuery) :
    ∀ item ∈ (listConversations st q).items,
      ∃ r, r ∈ st.rows ∧ rowMatches q r = true ∧ item.id = r.id ∧
        (r.conversation.length ≤ 160 → item.preview = r.conversation) ∧
        (160 < r.conversation.length →
          item.preview = r.conversation.take 160 ++ "…") := by
  intro item hitem
  rcases mem_listItems hitem with ⟨r, hmem, hmatch, hsum⟩
  refine ⟨r, hmem, hmatch, ?_, ?_, ?_⟩
  · rw [← hsum]; rfl
  · intro hle
    rw [← hsum]
    simp only [summarize, makePreview]
    rw [if_neg (by omega)]
  · intro hgt
    rw [← hsum]
    simp only [summarize, makePreview]
    rw [if_pos hgt]

/-- Witness for C5 at a concrete one-row store whose listing returns one
item. -/
theorem listPreview_spec_witness :
    ∃ r, r ∈ (⟨[⟨1, "A", some "s", "c", 0⟩], 2⟩ : DBState).rows ∧
      rowMatches ⟨"s", none, none, 50, 0⟩ r = true ∧
      (⟨1, "A", some "s", 0, "c"⟩ : ConversationSummary).id = r.id ∧
      (r.conversation.length ≤ 160 →
        (⟨1, "A", some "s", 0, "c"⟩ : ConversationSummary).preview =
          r.conversation) ∧
      (160 < r.conversation.length →
        (⟨1, "A", some "s", 0, "c"⟩ : ConversationSummary).preview =
          r.conversation.take 160 ++ "…") :=
  listPreview_spec ⟨[⟨1, "A", some "s", "c", 0⟩], 2⟩ ⟨"s", none, none, 50, 0⟩
    ⟨1, "A", some "s", 0, "c"⟩ (by decide)

/-- C6: for a found row, the export endpoint returns the stored conversation
with every occurrence of the three-character delimiter `" , "` replaced by a
line break; when the conversation contains no occurrence of the delimiter it
is returned unchanged; and `"a , b , c"` exports as `"a\nb\nc"`. -/
theorem exportTransform_spec (st : DBState) (id : Nat) (sujet : String)
    (r : Row) (h : findByIdSujet st id (pyLower sujet) = some r) :
    exportConversationTxt st id sujet =
      .ok (pyReplace r.conversation " , " "\n") ∧
    (hasOcc " , ".toList r.conversation.toList = false →
      exportConversationTxt st id sujet = .ok r.conversation) ∧
    pyReplace "a , b , c" " , " "\n" = "a\nb\nc" := by
  have hbody : exportConversationTxt st id sujet =
      .ok (pyReplace r.conversation " , " "\n") := by
    rw [exportConversationTxt, h]
  refine ⟨hbody, ?_, by decide⟩
  intro hno
  rw [hbody, pyReplace_of_no_occ _ _ _ hno]

/-- Witness for C6 at a concrete store: a delimited conversation is split into
lines, and the delimiter-free part of the statement is exercised too. -/
theorem exportTransform_spec_witness :
    exportConversationTxt ⟨[⟨1, "A", some "s", "hello", 0⟩], 2⟩ 1 "s" =
      .ok (pyReplace "hello" " , " "\n") ∧
    (hasOcc " , ".toList "hello".toList = false →
      exportConversationTxt ⟨[⟨1, "A", some "s", "hello", 0⟩], 2⟩ 1 "s" =
        .ok "hello") ∧
    pyReplace "a , b , c" " , " "\n" = "a\nb\nc" :=
  exportTransform_spec ⟨[⟨1, "A", some "s", "hello", 0⟩], 2⟩ 1 "s"
    ⟨1, "A", some "s", "hello", 0⟩ (by decide)

theorem sortRows_two (a b : Row) (h : ¬ rowBefore a b) :
    sortRows [a, b] = [b, a] := by
  simp only [sortRows, List.insertionSort, List.orderedInsert, if_neg h]

theorem sortRows_three (a b c : Row) (hab : ¬ rowBefore a b)
    (hac : ¬ rowBefore a c) (hbc : ¬ rowBefore b c) :
    sortRows [a, b, c] = [c, b, a] := by
  simp only [sortRows, List.insertionSort, List.orderedInsert,
    if_neg hab, if_neg hac, if_neg hbc]

/-- C7: the list endpoint's items are ordered by `date_conversation`
descending with `id` descending as tie-break (stated as pairwise sortedness of
every response, limit/offset pages included, since the page is cut from the
ordered list); for three matching records with timestamps `t1 < t2 < t3` the
full listing returns them as T3, T2, T1; and for two records with identical
timestamps and ids 5 and 7 it returns id 7 before id 5. -/
theorem listOrdering_spec :
    (∀ (st : DBState) (q : ListQuery),
      ((listConversations st q).items).Pairwise (fun a b =>
        b.date_conversation < a.date_conversation ∨
        (a.date_conversation = b.date_conversation ∧ b.id ≤ a.id))) ∧
    (∀ t1 t2 t3 : Int, t1 < t2 → t2 < t3 →
      ((listConversations
          ⟨[⟨1, "u", some "s", "c", t1⟩, ⟨2, "u", some "s", "c", t2⟩,
            ⟨3, "u", some "s", "c", t3⟩], 4⟩
          ⟨"s", none, none, 50, 0⟩).items.map (fun i => i.id)) = [3, 2, 1] ∧
      ((listConversations
          ⟨[⟨1, "u", some "s", "c", t1⟩, ⟨2, "u", some "s", "c", t2⟩,
            ⟨3, "u", some "s", "c", t3⟩], 4⟩
          ⟨"s", none, none, 1, 0⟩).items.map (fun i => i.id)) = [3] ∧
      ((listConversations
          ⟨[⟨1, "u", some "s", "c", t1⟩, ⟨2, "u", some "s", "c", t2⟩,
            ⟨3, "u", some "s", "c", t3⟩], 4⟩
          ⟨"s", none, none, 50, 2⟩).items.map (fun i => i.id)) = [1]) ∧
    (∀ t : Int,
      ((listConversations
          ⟨[⟨5, "u", some "s", "c", t⟩, ⟨7, "u", some "s", "c", t⟩], 8⟩
          ⟨"s", none, none, 50, 0⟩).items.map (fun i => i.id)) = [7, 5]) := by
  refine ⟨?_, ?_, ?_⟩
  · intro st q
    simp only [listConversations]
    rw [List.pairwise_map]
    exact List.Pairwise.sublist (page_sublist _ _ _)
      (sortRows_pairwise (st.rows.filter (rowMatches q)))
  · intro t1 t2 t3 h12 h23
    have hfil : ∀ lim off : Nat,
        List.filter (rowMatches ⟨"s", none, none, lim, off⟩)
          [⟨1, "u", some "s", "c", t1⟩, ⟨2, "u", some "s", "c", t2⟩,
            ⟨3, "u", some "s", "c", t3⟩] =
          [⟨1, "u", some "s", "c", t1⟩, ⟨2, "u", some "s", "c", t2⟩,
            ⟨3, "u", some "s", "c", t3⟩] := by
      intro lim off
      rw [List.filter_eq_self]
      intro a ha
      simp only [List.mem_cons, List.not_mem_nil, or_false] at ha
      rcases ha with rfl | rfl | rfl <;> simp [rowMatches, sujetMatches]
    have hsort := sortRows_three
      (⟨1, "u", some "s", "c", t1⟩ : Row) ⟨2, "u", some "s", "c", t2⟩
      ⟨3, "u", some "s", "c", t3⟩
      (by unfold rowBefore; simp only; omega)
      (by unfold rowBefore; simp only; omega)
      (by unfold rowBefore; simp only; omega)
    refine ⟨?_, ?_, ?_⟩
    · simp only [listConversations, hfil, hsort, List.drop_zero]
      rw [List.take_of_length_le (by simp)]
      rfl
    · simp only [listConversations, hfil, hsort, List.drop_zero]
      rfl
    · simp only [listConversations, hfil, hsort]
      rw [List.take_of_length_le (by simp)]
      rfl
  · intro t
    have hfil : List.filter (rowMatches ⟨"s", none, none, 50, 0⟩)
        [⟨5, "u", some "s", "c", t⟩, ⟨7, "u", some "s", "c", t⟩] =
        [⟨5, "u", some "s", "c", t⟩, ⟨7, "u", some "s", "c", t⟩] := by
      rw [List.filter_eq_self]
      intro a ha
      simp only [List.mem_cons, List.not_mem_nil, or_false] at ha
      rcases ha with rfl | rfl <;> simp [rowMatches, sujetMatches]
    have hsort := sortRows_two
      (⟨5, "u", some "s", "c", t⟩ : Row) ⟨7, "u", some "s", "c", t⟩
      (by unfold rowBefore; simp only; omega)
    simp only [listConversations, hfil, hsort, List.drop_zero]
    rw [List.take_of_length_le (by simp)]
    rfl

/-- Witness for C7: the three-record and tie-break parts applied at concrete
timestamps 1 < 2 < 3 and at timestamp 0. -/
theorem listOrdering_spec_witness :
    ((listConversations
        ⟨[⟨1, "u", some "s", "c", 1⟩, ⟨2, "u", some "s", "c", 2⟩,
          ⟨3, "u", some "s", "c", 3⟩], 4⟩
        ⟨"s", none, none, 50, 0⟩).items.map (fun i => i.id)) = [3, 2, 1] ∧
    ((listConversations
        ⟨[⟨1, "u", some "s", "c", 1⟩, ⟨2, "u", some "s", "c", 2⟩,
          ⟨3, "u", some "s", "c", 3⟩], 4⟩
        ⟨"s", none, none, 1, 0⟩).items.map (fun i => i.id)) = [3] ∧
    ((listConversations
        ⟨[⟨1, "u", some "s", "c", 1⟩, ⟨2, "u", some "s", "c", 2⟩,
          ⟨3, "u", some "s", "c", 3⟩], 4⟩
        ⟨"s", none, none, 50, 2⟩).items.map (fun i => i.id)) = [1] ∧
    ((listConversations
        ⟨[⟨5, "u", some "s", "c", 0⟩, ⟨7, "u", some "s", "c", 0⟩], 8⟩
        ⟨"s", none, none, 50, 0⟩).items.map (fun i => i.id)) = [7, 5] :=
  ⟨(listOrdering_spec.2.1 1 2 3 (by decide) (by decide)).1,
    (listOrdering_spec.2.1 1 2 3 (by decide) (by decide)).2.1,
    (listOrdering_spec.2.1 1 2 3 (by decide) (by decide)).2.2,
    listOrdering_spec.2.2 0⟩

/-- C8: the total returned by the list endpoint equals the number of stored
rows satisfying the same conjunctive filter predicate as the items query
(mandatory sujet, optional date and user_name), computed without limit or
offset; it is independent of limit and offset, and the returned page can never
contain more items than the total. -/
theorem listTotal_spec (st : DBState) (q : ListQuery) :
    (listConversations st q).total = (st.rows.filter (rowMatches q)).length ∧
    (∀ l₁ o₁ l₂ o₂ : Nat,
      (listConversations st { q with limit := l₁, offset := o₁ }).total =
        (listConversations st { q with limit := l₂, offset := o₂ }).total) ∧
    (listConversations st q).items.length ≤ (listConversations st q).total := by
  refine ⟨rfl, fun l₁ o₁ l₂ o₂ => rfl, ?_⟩
  simp only [listConversations, List.length_map, List.length_take,
    List.length_drop, length_sortRows]
  omega

/-- C9: when no stored row matches the requested id together with the
case-insensitively compared sujet, and the query itself does not raise,
get-by-id and export both return the distinct 404 not-found outcome (with the
connection closed, the normal exit) rather than the generic 500 data-layer
failure: the `except HTTPException: raise` clause re-raises the 404
unchanged. -/
theorem notFound_spec (st : DBState) (id : Nat) (sujet : String)
    (h : findByIdSujet st id (pyLower sujet) = none) :
    getConversationByIdExec st id sujet false =
      ⟨.httpError 404 "Conversation not found", true⟩ ∧
    exportConversationTxtExec st id sujet false =
      ⟨.httpError 404 "Conversation not found", true⟩ := by
  have hget : getConversationById st id sujet =
      .httpError 404 "Conversation not found" := by
    unfold getConversationById
    rw [h]
  have hexp : exportConversationTxt st id sujet =
      .httpError 404 "Conversation not found" := by
    unfold exportConversationTxt
    rw [h]
  constructor
  · simp [getConversationByIdExec, hget]
  · simp [exportConversationTxtExec, hexp]

/-- Witness for C9: a request for id 1 against the empty store. -/
theorem notFound_spec_witness :
    getConversationByIdExec ⟨[], 1⟩ 1 "s" false =
      ⟨.httpError 404 "Conversation not found", true⟩ ∧
    exportConversationTxtExec ⟨[], 1⟩ 1 "s" false =
      ⟨.httpError 404 "Conversation not found", true⟩ :=
  notFound_spec ⟨[], 1⟩ 1 "s" (by decide)

/-- C10: a stored record whose `sujet` is NULL is unreachable through the
read interface: for every query sujet, get-by-id and export answer 404 for its
id, and no list response ever contains an item with its id — the mandatory
`LOWER(sujet) = %s` comparison never matches a NULL column. `distinctIds` is
the primary-key property of the id column. -/
theorem nullSujet_spec (st : DBState) (hids : distinctIds st) (row : Row)
    (hrow : row ∈ st.rows) (hnull : row.sujet = none) :
    (∀ sujet : String, getConversationById st row.id sujet =
      .httpError 404 "Conversation not found") ∧
    (∀ sujet : String, exportConversationTxt st row.id sujet =
      .httpError 404 "Conversation not found") ∧
    (∀ q : ListQuery, ∀ item ∈ (listConversations st q).items,
      item.id ≠ row.id) := by
  have hsymm : Symmetric (fun a b : Row => a.id ≠ b.id) :=
    fun _ _ h e => h e.symm
  have key : ∀ r ∈ st.rows, r.id = row.id → r = row := by
    intro r hr hid
    by_contra hne
    exact List.Pairwise.forall hsymm hids hr hrow hne hid
  have hfind : ∀ param : String, findByIdSujet st row.id param = none := by
    intro param
    rw [findByIdSujet, List.find?_eq_none]
    intro r hr
    by_cases hid : r.id = row.id
    · rw [key r hr hid, hnull]
      simp [sujetMatches]
    · simp [hid]
  refine ⟨?_, ?_, ?_⟩
  · intro sujet
    unfold getConversationById
    rw [hfind]
  · intro sujet
    unfold exportConversationTxt
    rw [hfind]
  · intro q item hitem
    rcases mem_listItems hitem with ⟨r, hmem, hmatch, hsum⟩
    intro hid_eq
    have hrid : r.id = row.id := by
      rw [← hsum] at hid_eq
      exact hid_eq
    rw [key r hmem hrid] at hmatch
    simp only [rowMatches, Bool.and_eq_true] at hmatch
    have hs := hmatch.1.1
    rw [hnull] at hs
    simp [sujetMatches] at hs

/-- Witness for C10: a single stored record with NULL sujet is invisible to
all three read endpoints. -/
theorem nullSujet_spec_witness :
    (∀ sujet : String,
      getConversationById ⟨[⟨1, "A", none, "c", 0⟩], 2⟩
          (Row.mk 1 "A" none "c" 0).id sujet =
        .httpError 404 "Conversation not found") ∧
    (∀ sujet : String,
      exportConversationTxt ⟨[⟨1, "A", none, "c", 0⟩], 2⟩
          (Row.mk 1 "A" none "c" 0).id sujet =
        .httpError 404 "Conversation not found") ∧
    (∀ q : ListQuery,
      ∀ item ∈ (listConversations ⟨[⟨1, "A", none, "c", 0⟩], 2⟩ q).items,
        item.id ≠ (Row.mk 1 "A" none "c" 0).id) :=
  nullSujet_spec ⟨[⟨1, "A", none, "c", 0⟩], 2⟩
    (List.pairwise_singleton _ _) ⟨1, "A", none, "c", 0⟩
    (List.mem_singleton.2 rfl) rfl

end ConvLogger
